import Mathlib

/-!
Shallow embedding of the session-routing core of the backwards-compatible
MCP server (src/server.ts).  The server keeps one module-level registry
`transports` mapping session ids to transport instances of two mutually
incompatible families (Streamable HTTP and legacy SSE), routes requests on
the endpoints /mcp, /sse and /messages, and drains the registry on SIGINT.

JavaScript objects keyed by strings are embedded as association lists;
`transports[k] = v` is `regSet`, `delete transports[k]` is `regDelete`,
`transports[k]` is `regLookup`.  JavaScript string truthiness (`undefined`
and `""` are falsy) is `jsTruthy`.  Object allocation (event stores and
McpServer instances, whose identity matters for freshness claims) is
embedded with an allocation counter `alloc`: each constructed object gets
the next id.
-/

/-- One registered tool: name, description (src/tools/types.ts).
The parameter schema and callback are out of routing scope. -/
structure CallTool where
  name : String
  description : String
deriving DecidableEq

/-- The single tool declared in the tools module (fakeTool). -/
def fakeTool : CallTool := { name := "fake", description := "Fake tool" }

/-- The statically-declared tool list registered on every server instance. -/
def tools : List CallTool := [fakeTool]

/-- A protocol-server (McpServer) instance; `id` is its allocation identity,
`registeredTools` the tools registered on it by `getServer`. -/
structure McpServerModel where
  id : Nat
  name : String
  version : String
  registeredTools : List CallTool
deriving DecidableEq

/-- Embedding of `getServer` (src/server.ts lines 21-35): builds a fresh
McpServer and registers every tool of the static `tools` list on it. -/
def getServer (id : Nat) : McpServerModel :=
  { id := id, name := "jsm-mcp-server", version := "1.0.0", registeredTools := tools }

/-- The two transport families stored in the registry. -/
inductive TransportKind
  | streamable
  | legacySSE
deriving DecidableEq

/-- One transport instance.  `sessionId` is the session id assigned to it
(by the SDK for Streamable, at construction for SSE); `eventStoreId` is the
allocation id of the InMemoryEventStore wired into it (Streamable only);
`server` is the McpServer instance it was connected to. -/
structure Transport where
  kind : TransportKind
  sessionId : Option String
  eventStoreId : Option Nat
  server : McpServerModel
deriving DecidableEq

/-- The module-level `transports` object: session id to transport. -/
abbrev Registry := List (String × Transport)

/-- `transports[id]` — property lookup on the registry object. -/
def regLookup (reg : Registry) (id : String) : Option Transport :=
  match reg with
  | [] => none
  | (k, t) :: rest => if k = id then some t else regLookup rest id

/-- `transports[id] = t` — property assignment: overwrites an existing
binding for `id`, otherwise appends a new one. -/
def regSet (reg : Registry) (id : String) (t : Transport) : Registry :=
  match reg with
  | [] => [(id, t)]
  | (k, u) :: rest => if k = id then (k, t) :: rest else (k, u) :: regSet rest id t

/-- `delete transports[id]` — removes the binding if present, otherwise a
no-op; never an error. -/
def regDelete (reg : Registry) (id : String) : Registry :=
  match reg with
  | [] => []
  | (k, u) :: rest => if k = id then regDelete rest id else (k, u) :: regDelete rest id

/-- JavaScript truthiness of a string-or-undefined value: `undefined` and
the empty string are falsy. -/
def jsTruthy : Option String → Bool
  | none => false
  | some s => if s = "" then false else true

/-- The guard `sessionId && transports[sessionId]` of the /mcp handler:
resolves the request header to a registry entry only when the header is
truthy and the lookup succeeds. -/
def sessionEntry (reg : Registry) (header : Option String) : Option Transport :=
  match header with
  | none => none
  | some s => if s = "" then none else regLookup reg s

/-- HTTP verb of a request to /mcp (app.all accepts them all). -/
inductive HttpMethod
  | get
  | post
  | delete
  | other
deriving DecidableEq

/-- An inbound request to /mcp: verb, the `mcp-session-id` header, whether
the body satisfies `isInitializeRequest`, and the `token` query parameter. -/
structure McpRequest where
  method : HttpMethod
  sessionHeader : Option String
  isInitBody : Bool
  token : Option String
deriving DecidableEq

/-- What `await transport.handleRequest(req, res, req.body)` did: either it
completed, or it threw.  For a throw, `initDone` records whether the SDK had
already assigned the session id and fired `onsessioninitialized` (relevant
only on the initialization path), and `headersSent` records whether part of
the response had already been written (`res.headersSent`). -/
inductive HandleOutcome
  | ok
  | failure (initDone : Bool) (headersSent : Bool)
deriving DecidableEq

/-- The response the handler produced: a JSON-RPC error envelope with an
HTTP status, a plain-text body, a response fully delegated to the resolved
transport, or (after a throw with headers already sent) nothing further
written. -/
inductive HttpResponse
  | json (status : Nat) (code : Int) (message : String)
  | text (status : Nat) (body : String)
  | handled
  | absorbed
deriving DecidableEq

/-- Result of one /mcp request: the response, the registry and allocation
counter afterwards, and the transport the request was handed to (if any). -/
structure McpStep where
  response : HttpResponse
  registry : Registry
  nextAlloc : Nat
  dispatched : Option Transport
deriving DecidableEq

/-- Embedding of the `app.all("/mcp")` handler (src/server.ts lines 49-143).
`genId` is the session id `randomUUID()` would produce for this request via
`sessionIdGenerator`; `alloc` is the allocation counter for the event store
and server constructed on the initialization path; `outcome` is how the
transport's own `handleRequest` behaved.  The catch block (lines 130-142)
reports a 500 Internal-error envelope only when `res.headersSent` is false. -/
def handleMcp (reg : Registry) (alloc : Nat) (req : McpRequest) (genId : String)
    (outcome : HandleOutcome) : McpStep :=
  match sessionEntry reg req.sessionHeader with
  | some existingTransport =>
    if existingTransport.kind = TransportKind.streamable then
      -- Reuse existing transport, then hand the request to it.
      match outcome with
      | HandleOutcome.ok =>
        { response := HttpResponse.handled, registry := reg, nextAlloc := alloc,
          dispatched := some existingTransport }
      | HandleOutcome.failure _ headersSent =>
        { response := if headersSent then HttpResponse.absorbed
            else HttpResponse.json 500 (-32603) "Internal server error",
          registry := reg, nextAlloc := alloc, dispatched := some existingTransport }
    else
      -- Session exists but is bound to the other family: reject, no mutation.
      { response := HttpResponse.json 400 (-32000)
          "Bad Request: Session exists but uses a different transport protocol",
        registry := reg, nextAlloc := alloc, dispatched := none }
  | none =>
    if jsTruthy req.sessionHeader = false ∧ req.method = HttpMethod.post
        ∧ req.isInitBody = true then
      if jsTruthy req.token = false then
        -- `if (!token)`: reject, no registry entry created.
        { response := HttpResponse.json 400 (-32000) "Bad Request: No token provided",
          registry := reg, nextAlloc := alloc, dispatched := none }
      else
        -- new InMemoryEventStore(); new StreamableHTTPServerTransport({...});
        -- getServer(); server.connect(transport); transport.handleRequest(...).
        -- During handleRequest of an initialization body the SDK assigns
        -- `genId` and fires onsessioninitialized, which runs
        -- `transports[sessionId] = transport`.
        let transport : Transport :=
          { kind := TransportKind.streamable, sessionId := some genId,
            eventStoreId := some alloc, server := getServer (alloc + 1) }
        match outcome with
        | HandleOutcome.ok =>
          { response := HttpResponse.handled, registry := regSet reg genId transport,
            nextAlloc := alloc + 2, dispatched := some transport }
        | HandleOutcome.failure initDone headersSent =>
          { response := if headersSent then HttpResponse.absorbed
              else HttpResponse.json 500 (-32603) "Internal server error",
            registry := if initDone then regSet reg genId transport else reg,
            nextAlloc := alloc + 2, dispatched := some transport }
    else
      -- No usable session id and not an initialization request.
      { response := HttpResponse.json 400 (-32000) "Bad Request: No valid session ID provided",
        registry := reg, nextAlloc := alloc, dispatched := none }

/-- Result of one GET /sse request. -/
structure SseStep where
  registry : Registry
  nextAlloc : Nat
  transport : Transport
deriving DecidableEq

/-- Embedding of the `app.get("/sse")` handler (src/server.ts lines 149-158):
always constructs a fresh SSEServerTransport whose session id `genId` is
generated at construction, registers it with `transports[id] = transport`,
and connects a fresh server from `getServer` to it. -/
def handleSse (reg : Registry) (alloc : Nat) (genId : String) : SseStep :=
  let transport : Transport :=
    { kind := TransportKind.legacySSE, sessionId := some genId,
      eventStoreId := none, server := getServer alloc }
  { registry := regSet reg genId transport, nextAlloc := alloc + 1,
    transport := transport }

/-- Result of one POST /messages request. -/
structure MessagesStep where
  response : HttpResponse
  registry : Registry
  dispatched : Option Transport
deriving DecidableEq

/-- Embedding of the `app.post("/messages")` handler (src/server.ts lines
160-184).  The local variable `transport` is only assigned in the
`instanceof SSEServerTransport` branch (the other branch responds 400 and
returns), and the final `if (transport)` tests its truthiness — assigned
transports are objects, hence truthy. -/
def handleMessages (reg : Registry) (sessionId : String) : MessagesStep :=
  let existingTransport := regLookup reg sessionId
  match existingTransport with
  | some t =>
    if t.kind = TransportKind.legacySSE then
      -- transport = existingTransport
      let transport : Option Transport := some t
      if transport.isSome then
        { response := HttpResponse.handled, registry := reg, dispatched := transport }
      else
        { response := HttpResponse.text 400 "No transport found for sessionId",
          registry := reg, dispatched := none }
    else
      { response := HttpResponse.json 400 (-32000)
          "Bad Request: Session exists but uses a different transport protocol",
        registry := reg, dispatched := none }
  | none =>
    { response := HttpResponse.json 400 (-32000)
        "Bad Request: Session exists but uses a different transport protocol",
      registry := reg, dispatched := none }

/-- Embedding of `transport.onclose` for a Streamable transport
(src/server.ts lines 104-110): `const sid = transport.sessionId;
if (sid && transports[sid]) delete transports[sid];`. -/
def transportOnclose (reg : Registry) (t : Transport) : Registry :=
  match t.sessionId with
  | none => reg
  | some sid =>
    if sid = "" then reg
    else if (regLookup reg sid).isSome then regDelete reg sid else reg

/-- One iteration of the SIGINT drain loop for session key `k`: on a close
failure the entry is left in place (the `delete` after `await close()` is
skipped by the throw and only the error is logged); on success the entry is
removed (by the transport's own close callback and/or the explicit delete —
both reduce to one removal). -/
def drainStep (closeFails : String → Bool) (r : Registry) (k : String) : Registry :=
  if closeFails k then r else regDelete r k

/-- Result of the SIGINT handler: the registry after the drain, the session
ids whose transports received a `close()` call, and the process exit code. -/
structure DrainResult where
  registry : Registry
  closeCalls : List String
  exitCode : Nat
deriving DecidableEq

/-- Embedding of the `process.on("SIGINT")` handler (src/server.ts lines
213-228): iterate over the registry's keys, attempt `close()` on each
(failures are logged and the loop continues), then `process.exit(0)`. -/
def sigintDrain (reg : Registry) (closeFails : String → Bool) : DrainResult :=
  let keys := reg.map Prod.fst
  { registry := keys.foldl (drainStep closeFails) reg,
    closeCalls := keys,
    exitCode := 0 }

/-- Whether an optional event-store allocation id lies below the counter. -/
def storeBelow (o : Option Nat) (a : Nat) : Bool :=
  match o with
  | none => true
  | some n => n < a

/-- Well-formedness of the allocation counter: every server instance and
event store referenced from the registry was allocated before `alloc`. -/
def RegistryWF (reg : Registry) (alloc : Nat) : Prop :=
  ∀ p ∈ reg, p.2.server.id < alloc ∧ storeBelow p.2.eventStoreId alloc = true

/-- The transport the /mcp initialization path constructs when the
allocation counter stands at `alloc` and the SDK generates `genId`: a
Streamable transport wired to the event store allocated at `alloc` and
connected to the server allocated at `alloc + 1`.  It coincides
definitionally with the literal inside `handleMcp`. -/
def newStreamTransport (genId : String) (alloc : Nat) : Transport :=
  { kind := TransportKind.streamable, sessionId := some genId,
    eventStoreId := some alloc, server := getServer (alloc + 1) }

/-- A concrete Streamable transport for concrete instances. -/
def tStream0 : Transport :=
  { kind := TransportKind.streamable, sessionId := some "a", eventStoreId := some 0,
    server := getServer 1 }

/-- A concrete legacy SSE transport for concrete instances. -/
def tLegacy0 : Transport :=
  { kind := TransportKind.legacySSE, sessionId := some "b", eventStoreId := none,
    server := getServer 2 }

/-! ### Registry lemmas -/

theorem regLookup_regSet_self (reg : Registry) (id : String) (t : Transport) :
    regLookup (regSet reg id t) id = some t := by
  induction reg with
  | nil => simp [regSet, regLookup]
  | cons p rest ih =>
    obtain ⟨k, u⟩ := p
    by_cases h : k = id
    · simp [regSet, regLookup, h]
    · simp [regSet, regLookup, h, ih]

theorem regLookup_regSet_ne (reg : Registry) (id k : String) (t : Transport)
    (h : k ≠ id) : regLookup (regSet reg id t) k = regLookup reg k := by
  induction reg with
  | nil =>
    simp only [regSet, regLookup]
    rw [if_neg (fun hh => h hh.symm)]
  | cons p rest ih =>
    obtain ⟨k', u⟩ := p
    by_cases h' : k' = id
    · subst h'
      simp only [regSet, if_pos rfl, regLookup]
      rw [if_neg (fun hh => h hh.symm), if_neg (fun hh => h hh.symm)]
    · simp only [regSet, if_neg h', regLookup, ih]

theorem regLookup_regDelete_self (reg : Registry) (id : String) :
    regLookup (regDelete reg id) id = none := by
  induction reg with
  | nil => simp [regDelete, regLookup]
  | cons p rest ih =>
    obtain ⟨k, u⟩ := p
    by_cases h : k = id
    · simp [regDelete, h, ih]
    · simp [regDelete, regLookup, h, ih]

theorem regDelete_regDelete (reg : Registry) (id : String) :
    regDelete (regDelete reg id) id = regDelete reg id := by
  induction reg with
  | nil => simp [regDelete]
  | cons p rest ih =>
    obtain ⟨k, u⟩ := p
    by_cases h : k = id
    · simp [regDelete, h, ih]
    · simp [regDelete, h, ih]

theorem mem_regDelete (reg : Registry) (id : String) (p : String × Transport) :
    p ∈ regDelete reg id ↔ p ∈ reg ∧ p.1 ≠ id := by
  induction reg with
  | nil => simp [regDelete]
  | cons q rest ih =>
    obtain ⟨k, u⟩ := q
    by_cases h : k = id
    · rw [show regDelete ((k, u) :: rest) id = regDelete rest id from by
        simp [regDelete, h]]
      rw [ih]
      constructor
      · rintro ⟨hp, hne⟩
        exact ⟨List.mem_cons_of_mem _ hp, hne⟩
      · rintro ⟨hp, hne⟩
        rcases List.mem_cons.mp hp with hp | hp
        · exact absurd ((congrArg Prod.fst hp).trans h) hne
        · exact ⟨hp, hne⟩
    · rw [show regDelete ((k, u) :: rest) id = (k, u) :: regDelete rest id from by
        simp [regDelete, h]]
      simp only [List.mem_cons, ih]
      constructor
      · rintro (rfl | ⟨hp, hne⟩)
        · exact ⟨Or.inl rfl, h⟩
        · exact ⟨Or.inr hp, hne⟩
      · rintro ⟨rfl | hp, hne⟩
        · exact Or.inl rfl
        · exact Or.inr ⟨hp, hne⟩

/-! ### Shutdown drain lemmas -/

theorem filter_all_true (r : Registry) (fails : String → Bool)
    (h : ∀ p ∈ r, fails p.1 = true) : r.filter (fun p => fails p.1) = r := by
  induction r with
  | nil => simp
  | cons q rest ih =>
    have hq := h q (List.mem_cons_self q rest)
    have hrest : ∀ p ∈ rest, fails p.1 = true :=
      fun p hp => h p (List.mem_cons_of_mem _ hp)
    simp [List.filter_cons, hq, ih hrest]

theorem filter_regDelete (r : Registry) (k : String) (fails : String → Bool)
    (h : fails k = false) :
    (regDelete r k).filter (fun p => fails p.1) = r.filter (fun p => fails p.1) := by
  induction r with
  | nil => simp [regDelete]
  | cons q rest ih =>
    obtain ⟨k', u⟩ := q
    by_cases h' : k' = k
    · rw [show regDelete ((k', u) :: rest) k = regDelete rest k from by
        simp [regDelete, h']]
      rw [ih]
      have hfk : fails k' = false := by rw [h']; exact h
      simp [List.filter_cons, hfk]
    · rw [show regDelete ((k', u) :: rest) k = (k', u) :: regDelete rest k from by
        simp [regDelete, h']]
      simp [List.filter_cons, ih]

theorem drain_foldl_filter (fails : String → Bool) (ks : List String) (r : Registry)
    (h : ∀ p ∈ r, fails p.1 = false → p.1 ∈ ks) :
    ks.foldl (drainStep fails) r = r.filter (fun p => fails p.1) := by
  induction ks generalizing r with
  | nil =>
    simp only [List.foldl_nil]
    have hall : ∀ p ∈ r, fails p.1 = true := by
      intro p hp
      cases hf : fails p.1
      · exact absurd (h p hp hf) (List.not_mem_nil _)
      · rfl
    exact (filter_all_true r fails hall).symm
  | cons k ks ih =>
    simp only [List.foldl_cons]
    cases hk : fails k with
    | true =>
      rw [show drainStep fails r k = r from by simp [drainStep, hk]]
      apply ih
      intro p hp hf
      rcases List.mem_cons.mp (h p hp hf) with he | hm
      · rw [he, hk] at hf
        exact Bool.noConfusion hf
      · exact hm
    | false =>
      rw [show drainStep fails r k = regDelete r k from by simp [drainStep, hk]]
      have hyp : ∀ p ∈ regDelete r k, fails p.1 = false → p.1 ∈ ks := by
        intro p hp hf
        have hmem := (mem_regDelete r k p).mp hp
        rcases List.mem_cons.mp (h p hmem.1 hf) with he | hm
        · exact absurd he hmem.2
        · exact hm
      rw [ih (regDelete r k) hyp, filter_regDelete r k fails hk]

/-! ### Claim theorems -/

/-- Claim C4: an initialization POST to /mcp that lacks the `token` query
parameter is rejected with the MissingToken envelope
("Bad Request: No token provided") and HTTP status 400, the registry is
left unchanged, and the request is not handed to any transport. -/
theorem mcp_init_missing_token_rejected (reg : Registry) (alloc : Nat)
    (req : McpRequest) (genId : String) (outcome : HandleOutcome)
    (hm : req.method = HttpMethod.post) (hh : req.sessionHeader = none)
    (hb : req.isInitBody = true) (ht : req.token = none) :
    (handleMcp reg alloc req genId outcome).response
        = HttpResponse.json 400 (-32000) "Bad Request: No token provided"
      ∧ (handleMcp reg alloc req genId outcome).registry = reg
      ∧ (handleMcp reg alloc req genId outcome).dispatched = none := by
  obtain ⟨method, header, isInit, token⟩ := req
  simp only at hm hh hb ht
  subst hm
  subst hh
  subst hb
  subst ht
  simp [handleMcp, sessionEntry, jsTruthy]

/-- Witness for Claim C4 at a concrete request. -/
theorem mcp_init_missing_token_rejected_witness :
    (handleMcp [] 0 ⟨HttpMethod.post, none, true, none⟩ "g" HandleOutcome.ok).response
        = HttpResponse.json 400 (-32000) "Bad Request: No token provided"
      ∧ (handleMcp [] 0 ⟨HttpMethod.post, none, true, none⟩ "g"
          HandleOutcome.ok).registry = [] :=
  ⟨(mcp_init_missing_token_rejected [] 0 _ "g" HandleOutcome.ok rfl rfl rfl rfl).1,
   (mcp_init_missing_token_rejected [] 0 _ "g" HandleOutcome.ok rfl rfl rfl rfl).2.1⟩

/-- Claim C7: when the transport handling a /mcp request throws, the handler
responds with the 500 Internal-error envelope exactly when no part of the
response had been sent; if headers were already sent the failure is absorbed
and nothing further is written. -/
theorem mcp_failure_internal_error_iff_headers_unsent (reg : Registry) (alloc : Nat)
    (req : McpRequest) (genId : String) (initDone headersSent : Bool)
    (hd : ((handleMcp reg alloc req genId
        (HandleOutcome.failure initDone headersSent)).dispatched).isSome = true) :
    ((handleMcp reg alloc req genId (HandleOutcome.failure initDone headersSent)).response
        = HttpResponse.json 500 (-32603) "Internal server error" ↔ headersSent = false)
      ∧ (headersSent = true →
        (handleMcp reg alloc req genId (HandleOutcome.failure initDone headersSent)).response
          = HttpResponse.absorbed) := by
  cases he : sessionEntry reg req.sessionHeader with
  | some t =>
    by_cases hk : t.kind = TransportKind.streamable
    · simp only [handleMcp, he, if_pos hk]
      cases headersSent <;> simp
    · simp [handleMcp, he, hk] at hd
  | none =>
    by_cases hcond : jsTruthy req.sessionHeader = false ∧ req.method = HttpMethod.post
        ∧ req.isInitBody = true
    · by_cases htok : jsTruthy req.token = false
      · simp [handleMcp, he, hcond, htok] at hd
      · simp only [handleMcp, he, if_pos hcond, if_neg htok]
        cases headersSent <;> simp
    · simp [handleMcp, he, hcond] at hd

/-- Witness for Claim C7: a request to an existing Streamable session whose
handling throws before anything was written yields the 500 envelope. -/
theorem mcp_failure_internal_error_iff_headers_unsent_witness :
    (handleMcp [("a", tStream0)] 5 ⟨HttpMethod.post, some "a", false, none⟩ "g"
        (HandleOutcome.failure false false)).response
      = HttpResponse.json 500 (-32603) "Internal server error" :=
  (mcp_failure_internal_error_iff_headers_unsent [("a", tStream0)] 5 _ "g" false false
    (by decide)).1.mpr rfl

/-- Claim C10: in the /messages handler the fallback branch that would send
the plain-text body "No transport found for sessionId" is unreachable; every
outcome is either delegation to a legacy transport or the JSON-RPC error
envelope. -/
theorem messages_fallback_unreachable (reg : Registry) (sessionId : String) :
    (handleMessages reg sessionId).response
        ≠ HttpResponse.text 400 "No transport found for sessionId"
      ∧ ((handleMessages reg sessionId).response = HttpResponse.handled
        ∨ (handleMessages reg sessionId).response
            = HttpResponse.json 400 (-32000)
              "Bad Request: Session exists but uses a different transport protocol") := by
  cases he : regLookup reg sessionId with
  | none => simp [handleMessages, he]
  | some t =>
    by_cases hk : t.kind = TransportKind.legacySSE
    · simp [handleMessages, he, hk]
    · simp [handleMessages, he, hk]

/-- Counterexample to Claim C5 as stated: if a transport's `close()` throws
during the SIGINT drain, the `delete` that follows the `await` is skipped,
so the registry is not empty after the drain. -/
theorem sigint_drain_failed_close_leaves_entry_cex :
    (sigintDrain [("a", tStream0)] (fun _ => true)).registry ≠ []
      ∧ (sigintDrain [("a", tStream0)] (fun _ => true)).exitCode = 0 := by
  decide

/-- Claim C5 (amended): on SIGINT every registered transport receives a
close call and the process exits with status 0 regardless of individual
close failures, but after the drain the registry retains exactly the
entries whose close failed — it is empty only when every close succeeds. -/
theorem sigintDrain_characterization (reg : Registry) (closeFails : String → Bool) :
    sigintDrain reg closeFails =
      { registry := reg.filter (fun p => closeFails p.1),
        closeCalls := reg.map Prod.fst,
        exitCode := 0 } := by
  have h : ∀ p ∈ reg, closeFails p.1 = false → p.1 ∈ reg.map Prod.fst :=
    fun p hp _ => List.mem_map_of_mem Prod.fst hp
  simp only [sigintDrain]
  rw [drain_foldl_filter closeFails (reg.map Prod.fst) reg h]

/-- Claim C6: removing a session id from the registry twice in sequence is
a no-op the second time — no error is raised (both removal paths are total)
and the key is absent afterwards; the transport's own close callback run
after an explicit removal also leaves the registry unchanged. -/
theorem registry_double_removal_noop (reg : Registry) (id : String) :
    regDelete (regDelete reg id) id = regDelete reg id
      ∧ regLookup (regDelete (regDelete reg id) id) id = none
      ∧ ∀ t : Transport, t.sessionId = some id →
          transportOnclose (regDelete reg id) t = regDelete reg id := by
  refine ⟨regDelete_regDelete reg id, ?_, ?_⟩
  · rw [regDelete_regDelete]
    exact regLookup_regDelete_self reg id
  · intro t ht
    simp only [transportOnclose, ht]
    by_cases hid : id = ""
    · rw [if_pos hid]
    · rw [if_neg hid, regLookup_regDelete_self]
      simp

/-- Witness for Claim C6 at a concrete registry and session id. -/
theorem registry_double_removal_noop_witness :
    regDelete (regDelete [("a", tStream0)] "a") "a" = regDelete [("a", tStream0)] "a"
      ∧ transportOnclose (regDelete [("a", tStream0)] "a") tStream0
          = regDelete [("a", tStream0)] "a" :=
  ⟨(registry_double_removal_noop [("a", tStream0)] "a").1,
   (registry_double_removal_noop [("a", tStream0)] "a").2.2 tStream0 (by decide)⟩

/-- Counterexample to Claim C3 as stated: registering a new SSE transport
under a session id that is already present does not fail — it silently
replaces the existing entry, so the last writer wins, not the first. -/
theorem sse_insert_replaces_existing_entry_cex :
    regLookup (handleSse [("s", tStream0)] 5 "s").registry "s"
        = some (handleSse [("s", tStream0)] 5 "s").transport
      ∧ (handleSse [("s", tStream0)] 5 "s").transport ≠ tStream0 := by
  decide

/-- Claim C3 (amended): an insert under an id that is already present in
the registry does not crash, but it replaces the existing entry — the last
writer for a given id wins; bindings of all other ids are unaffected. -/
theorem regSet_last_writer_wins (reg : Registry) (id : String) (t0 t : Transport)
    (hpresent : regLookup reg id = some t0) :
    regLookup (regSet reg id t) id = some t
      ∧ ∀ k, k ≠ id → regLookup (regSet reg id t) k = regLookup reg k :=
  ⟨regLookup_regSet_self reg id t, fun k hk => regLookup_regSet_ne reg id k t hk⟩

/-- Witness for Claim C3 (amended) at a concrete collision. -/
theorem regSet_last_writer_wins_witness :
    regLookup (regSet [("s", tStream0)] "s" tLegacy0) "s" = some tLegacy0
      ∧ regLookup (regSet [("s", tStream0)] "s" tLegacy0) "x"
          = regLookup [("s", tStream0)] "x" :=
  ⟨(regSet_last_writer_wins [("s", tStream0)] "s" tStream0 tLegacy0 (by decide)).1,
   (regSet_last_writer_wins [("s", tStream0)] "s" tStream0 tLegacy0 (by decide)).2
     "x" (by decide)⟩

/-- Counterexample to Claim C8 as stated: a request whose `mcp-session-id`
header is present with the empty-string value — a value that is not a key
of the (empty) registry — is not rejected: the handler treats the falsy
header as absent and, the body being an initialization message with a token
supplied, creates a session. -/
theorem empty_header_init_creates_session_cex :
    (handleMcp [] 0 ⟨HttpMethod.post, some "", true, some "tok"⟩ "u1"
        HandleOutcome.ok).response
        ≠ HttpResponse.json 400 (-32000) "Bad Request: No valid session ID provided"
      ∧ (handleMcp [] 0 ⟨HttpMethod.post, some "", true, some "tok"⟩ "u1"
          HandleOutcome.ok).registry ≠ [] := by
  decide

/-- Claim C8 (amended): for every /mcp request whose `mcp-session-id`
header carries a non-empty value that is not a key of the registry, the
handler rejects with the InvalidSession envelope
("Bad Request: No valid session ID provided") and status 400, creates no
session and no registry entry, and dispatches to no transport — session
creation is attempted only when the header is absent or empty, because an
empty-string header value is falsy and treated as absent. -/
theorem mcp_unknown_nonempty_header_rejected (reg : Registry) (alloc : Nat)
    (req : McpRequest) (genId : String) (outcome : HandleOutcome) (s : String)
    (hh : req.sessionHeader = some s) (hs : s ≠ "") (hl : regLookup reg s = none) :
    (handleMcp reg alloc req genId outcome).response
        = HttpResponse.json 400 (-32000) "Bad Request: No valid session ID provided"
      ∧ (handleMcp reg alloc req genId outcome).registry = reg
      ∧ (handleMcp reg alloc req genId outcome).nextAlloc = alloc
      ∧ (handleMcp reg alloc req genId outcome).dispatched = none := by
  have he : sessionEntry reg req.sessionHeader = none := by
    rw [hh]
    simp [sessionEntry, hs, hl]
  have ht : jsTruthy req.sessionHeader = true := by
    rw [hh]
    simp [jsTruthy, hs]
  simp [handleMcp, he, ht]

/-- Witness for Claim C8 (amended): an unknown non-empty header on an
otherwise valid initialization POST is rejected and creates nothing. -/
theorem mcp_unknown_nonempty_header_rejected_witness :
    (handleMcp [] 0 ⟨HttpMethod.post, some "zzz", true, some "tok"⟩ "u1"
        HandleOutcome.ok).response
        = HttpResponse.json 400 (-32000) "Bad Request: No valid session ID provided"
      ∧ (handleMcp [] 0 ⟨HttpMethod.post, some "zzz", true, some "tok"⟩ "u1"
          HandleOutcome.ok).registry = [] :=
  ⟨(mcp_unknown_nonempty_header_rejected [] 0 _ "u1" HandleOutcome.ok "zzz"
      rfl (by decide) rfl).1,
   (mcp_unknown_nonempty_header_rejected [] 0 _ "u1" HandleOutcome.ok "zzz"
      rfl (by decide) rfl).2.1⟩

/-- Claim C1: over any registry, (a) a /mcp request whose non-empty session
header maps to a legacy-family entry, and (b) a /messages request whose
session id maps to anything other than a legacy-family entry — a Streamable
entry or no entry at all — are rejected with HTTP 400 and the JSON-RPC
error envelope; the registry is left unchanged and the request is never
handed to any transport instance.  Each part carries its own hypotheses, so
the /messages part applies regardless of whether the registry contains any
legacy entry. -/
theorem wrong_family_requests_rejected (reg : Registry) :
    (∀ (alloc : Nat) (req : McpRequest) (genId : String) (outcome : HandleOutcome)
        (s : String) (t : Transport),
        req.sessionHeader = some s → s ≠ "" → regLookup reg s = some t →
        t.kind = TransportKind.legacySSE →
        ((handleMcp reg alloc req genId outcome).response
            = HttpResponse.json 400 (-32000)
              "Bad Request: Session exists but uses a different transport protocol"
          ∧ (handleMcp reg alloc req genId outcome).registry = reg
          ∧ (handleMcp reg alloc req genId outcome).dispatched = none))
    ∧ (∀ sid : String,
        (∀ u, regLookup reg sid = some u → u.kind ≠ TransportKind.legacySSE) →
        ((handleMessages reg sid).response
            = HttpResponse.json 400 (-32000)
              "Bad Request: Session exists but uses a different transport protocol"
          ∧ (handleMessages reg sid).registry = reg
          ∧ (handleMessages reg sid).dispatched = none)) := by
  constructor
  · intro alloc req genId outcome s t hh hs hl hk
    have he : sessionEntry reg req.sessionHeader = some t := by
      rw [hh]
      simp [sessionEntry, hs, hl]
    have hk' : t.kind ≠ TransportKind.streamable := by
      rw [hk]
      intro hcon
      exact TransportKind.noConfusion hcon
    simp [handleMcp, he, hk']
  · intro sid hmsg
    cases hm : regLookup reg sid with
    | none => simp [handleMessages, hm]
    | some u =>
      have hku : u.kind ≠ TransportKind.legacySSE := hmsg u hm
      simp [handleMessages, hm, hku]

/-- Witness for Claim C1: a /mcp request naming a legacy session over a
mixed registry, and /messages requests over a registry holding only a
Streamable session — one naming that session, one naming an unknown id. -/
theorem wrong_family_requests_rejected_witness :
    ((handleMcp [("L", tLegacy0), ("S", tStream0)] 7
        ⟨HttpMethod.post, some "L", false, none⟩ "g" HandleOutcome.ok).response
      = HttpResponse.json 400 (-32000)
        "Bad Request: Session exists but uses a different transport protocol")
    ∧ ((handleMessages [("S", tStream0)] "S").response
      = HttpResponse.json 400 (-32000)
        "Bad Request: Session exists but uses a different transport protocol")
    ∧ ((handleMessages [("S", tStream0)] "nope").response
      = HttpResponse.json 400 (-32000)
        "Bad Request: Session exists but uses a different transport protocol") := by
  have hmsgS : ∀ u, regLookup [("S", tStream0)] "S" = some u →
      u.kind ≠ TransportKind.legacySSE := by
    intro u hu
    have he : regLookup [("S", tStream0)] "S" = some tStream0 := by decide
    rw [he] at hu
    injection hu with h
    rw [← h]
    decide
  have hmsgN : ∀ u, regLookup [("S", tStream0)] "nope" = some u →
      u.kind ≠ TransportKind.legacySSE := by
    intro u hu
    have he : regLookup [("S", tStream0)] "nope" = none := by decide
    rw [he] at hu
    exact Option.noConfusion hu
  refine ⟨?_, ?_, ?_⟩
  · exact ((wrong_family_requests_rejected [("L", tLegacy0), ("S", tStream0)]).1
      7 ⟨HttpMethod.post, some "L", false, none⟩ "g" HandleOutcome.ok "L" tLegacy0
      rfl (by decide) (by decide) (by decide)).1
  · exact ((wrong_family_requests_rejected [("S", tStream0)]).2 "S" hmsgS).1
  · exact ((wrong_family_requests_rejected [("S", tStream0)]).2 "nope" hmsgN).1

/-- Claim C2: a POST to /mcp with no session-id header, an initialization
body and a non-empty token creates exactly one new registry entry — the
freshly generated id maps to a Streamable transport and every other id is
untouched — and that transport was constructed with a fresh event store,
one no existing registry entry references. -/
theorem mcp_init_creates_one_streamable_entry (reg : Registry) (alloc : Nat)
    (req : McpRequest) (genId : String) (tok : String)
    (hm : req.method = HttpMethod.post) (hh : req.sessionHeader = none)
    (hb : req.isInitBody = true) (ht : req.token = some tok) (htok : tok ≠ "")
    (hfresh : regLookup reg genId = none) (hwf : RegistryWF reg alloc) :
    ∃ t : Transport,
      regLookup (handleMcp reg alloc req genId HandleOutcome.ok).registry genId = some t
        ∧ t.kind = TransportKind.streamable
        ∧ t.eventStoreId = some alloc
        ∧ (∀ p ∈ reg, p.2.eventStoreId ≠ some alloc)
        ∧ (∀ k, k ≠ genId →
            regLookup (handleMcp reg alloc req genId HandleOutcome.ok).registry k
              = regLookup reg k)
        ∧ (handleMcp reg alloc req genId HandleOutcome.ok).dispatched = some t := by
  obtain ⟨method, header, isInit, token⟩ := req
  simp only at hm hh hb ht
  subst hm
  subst hh
  subst hb
  subst ht
  refine ⟨{ kind := TransportKind.streamable, sessionId := some genId,
            eventStoreId := some alloc, server := getServer (alloc + 1) }, ?_⟩
  have hred : handleMcp reg alloc ⟨HttpMethod.post, none, true, some tok⟩ genId
      HandleOutcome.ok
      = { response := HttpResponse.handled,
          registry := regSet reg genId
            { kind := TransportKind.streamable, sessionId := some genId,
              eventStoreId := some alloc, server := getServer (alloc + 1) },
          nextAlloc := alloc + 2,
          dispatched := some
            { kind := TransportKind.streamable, sessionId := some genId,
              eventStoreId := some alloc, server := getServer (alloc + 1) } } := by
    simp [handleMcp, sessionEntry, jsTruthy, htok]
  rw [hred]
  refine ⟨regLookup_regSet_self reg genId _, rfl, rfl, ?_, ?_, rfl⟩
  · intro p hp hcon
    have hb2 := (hwf p hp).2
    rw [hcon] at hb2
    simp [storeBelow] at hb2
  · intro k hk
    exact regLookup_regSet_ne reg genId k _ hk

/-- Witness for Claim C2: a concrete initialization POST over a registry
holding one legacy session. -/
theorem mcp_init_creates_one_streamable_entry_witness :
    ∃ t : Transport,
      regLookup (handleMcp [("L", tLegacy0)] 3
          ⟨HttpMethod.post, none, true, some "abc"⟩ "u1" HandleOutcome.ok).registry "u1"
          = some t
        ∧ t.kind = TransportKind.streamable
        ∧ t.eventStoreId = some 3
        ∧ (∀ p ∈ [("L", tLegacy0)], p.2.eventStoreId ≠ some 3)
        ∧ (∀ k, k ≠ "u1" →
            regLookup (handleMcp [("L", tLegacy0)] 3
                ⟨HttpMethod.post, none, true, some "abc"⟩ "u1"
                HandleOutcome.ok).registry k
              = regLookup [("L", tLegacy0)] k)
        ∧ (handleMcp [("L", tLegacy0)] 3 ⟨HttpMethod.post, none, true, some "abc"⟩
            "u1" HandleOutcome.ok).dispatched = some t :=
  mcp_init_creates_one_streamable_entry [("L", tLegacy0)] 3
    ⟨HttpMethod.post, none, true, some "abc"⟩ "u1" "abc"
    rfl rfl rfl rfl (by decide) (by decide) (by unfold RegistryWF; decide)

/-- Claim C9: each session-creation path binds the session to a freshly
constructed server instance carrying the same statically-declared tool
list: the /sse handler's new transport is connected to a server whose
allocation id differs from that of every server already in the registry,
and so is the transport freshly constructed by the /mcp initialization
path (recognizable as the dispatched transport when no session entry was
resolved); hence no two sessions share a server instance. -/
theorem fresh_server_per_session_fixed_tools (reg : Registry) (alloc : Nat)
    (genId : String) (hwf : RegistryWF reg alloc) :
    ((handleSse reg alloc genId).transport.server.registeredTools = tools
      ∧ (∀ p ∈ reg, p.2.server.id ≠ (handleSse reg alloc genId).transport.server.id))
    ∧ (∀ req outcome t, (handleMcp reg alloc req genId outcome).dispatched = some t →
        sessionEntry reg req.sessionHeader = none →
        (t.server.registeredTools = tools ∧ ∀ p ∈ reg, p.2.server.id ≠ t.server.id)) := by
  constructor
  · constructor
    · rfl
    · intro p hp
      have hlt := (hwf p hp).1
      simp only [handleSse, getServer]
      omega
  · intro req outcome t hd he
    by_cases hcond : jsTruthy req.sessionHeader = false ∧ req.method = HttpMethod.post
        ∧ req.isInitBody = true
    · by_cases htok : jsTruthy req.token = false
      · simp [handleMcp, he, hcond, htok] at hd
      · have hd' : t = newStreamTransport genId alloc := by
          cases outcome with
          | ok =>
            simp only [handleMcp, he, if_pos hcond, if_neg htok] at hd
            exact (Option.some_inj.mp hd).symm
          | failure initDone headersSent =>
            simp only [handleMcp, he, if_pos hcond, if_neg htok] at hd
            exact (Option.some_inj.mp hd).symm
        subst hd'
        constructor
        · rfl
        · intro p hp
          have hlt := (hwf p hp).1
          simp only [newStreamTransport, getServer]
          omega
    · simp [handleMcp, he, hcond] at hd

/-- Witness for Claim C9 over a concrete registry with one legacy session:
both creation paths yield servers distinct from the registered one and
carrying the static tool list. -/
theorem fresh_server_per_session_fixed_tools_witness :
    ((handleSse [("L", tLegacy0)] 3 "n").transport.server.registeredTools = tools
      ∧ (∀ p ∈ [("L", tLegacy0)], p.2.server.id
          ≠ (handleSse [("L", tLegacy0)] 3 "n").transport.server.id))
    ∧ ((newStreamTransport "n" 3).server.registeredTools = tools
      ∧ ∀ p ∈ [("L", tLegacy0)], p.2.server.id
          ≠ (newStreamTransport "n" 3).server.id) := by
  have h := fresh_server_per_session_fixed_tools [("L", tLegacy0)] 3 "n"
    (by unfold RegistryWF; decide)
  refine ⟨h.1, ?_⟩
  exact h.2 ⟨HttpMethod.post, none, true, some "tok"⟩ HandleOutcome.ok
    (newStreamTransport "n" 3) (by decide) (by decide)
